import Mathlib

/-!
Shallow embedding of the `force-rebase` tool (a Go program that audits and
repairs the AUTO_INCREMENT / `_tidb_rowid` counter state of TiDB tables).

Two versions of the program exist in the repository:
* `src/unnamed/part_000` — the mode-based version (`compare` | `rebase`),
  collecting facts into an ordered slice `tableInfos`;
* `src/main.go` — the dry-run variant, collecting facts into a hash map
  `maxRowIDs` and always performing the rebase action.

The database is an external collaborator; it is modelled as a record of
response functions (`DBConn`).  Program behaviour is modelled as the list of
observable events (stdout lines, log lines, SQL queries/statements sent to
the collaborator, fatal exits) that a run produces.
-/

deriving instance DecidableEq for Except

namespace ForceRebase

/-- An error returned by the SQL collaborator: either a MySQL server error
carrying a numeric code (as in `mysql.MySQLError`), or any other error,
identified by its message. -/
inductive SQLError where
  | mysql (number : Nat) (message : String)
  | generic (message : String)
deriving DecidableEq, Repr

/-- Rendering of an error, as interpolated by `%v` in the Go sources. -/
def SQLError.render : SQLError → String
  | .mysql n msg => "Error " ++ toString n ++ ": " ++ msg
  | .generic msg => msg

/-- `unknownColumnError.Is(err)`: `mysql.MySQLError.Is` compares only the
error number, and the sentinel `unknownColumnError` has `Number: 1054`. -/
def isUnknownColumn : SQLError → Bool
  | .mysql n _ => n == 1054
  | .generic _ => false

/-- One value in a result-set row, as delivered by the driver: a textual or
an integral value. -/
inductive Cell where
  | str (s : String)
  | int (n : Int)
deriving DecidableEq, Repr

/-- A result set, as consumed through `rows.Columns()` / `rows.Next()` /
`rows.Scan` / `rows.Err()`: a column-name list, the data rows, and the
iteration error reported by `rows.Err()` after the last row. -/
structure ResultSet where
  cols : List String
  rows : List (List Cell)
  iterationErr : Option SQLError := none
deriving DecidableEq, Repr

/-- The database collaborator: the response it gives to each statement the
program can send.  `showTables` answers `SHOW TABLES FROM ...`,
`maxRowIDResult` answers `SELECT coalesce(max(_tidb_rowid), 0) FROM ...`
(a single `int64` value or an error), `nextRowID` answers
`SHOW TABLE ... NEXT_ROW_ID`, and `execStmt` answers `db.Exec`. -/
structure DBConn where
  showTables : String → Except SQLError (List String)
  maxRowIDResult : String → String → Except SQLError Int
  nextRowID : String → String → Except SQLError ResultSet
  execStmt : String → Except SQLError Unit

/-! ## The SQL statement texts built by the program (`fmt.Sprintf`) -/

/-- `` `%s`.`%s` `` — the backquoted qualified name used by all per-table
statements.  Note the Go code performs no escaping inside the name. -/
def qualifiedName (schema table : String) : String :=
  "`" ++ schema ++ "`.`" ++ table ++ "`"

/-- `SHOW TABLES FROM `%s`` -/
def showTablesStatement (schema : String) : String :=
  "SHOW TABLES FROM `" ++ schema ++ "`"

/-- `SELECT coalesce(max(_tidb_rowid), 0) FROM `%s`.`%s`` -/
def maxRowIDStatement (schema table : String) : String :=
  "SELECT coalesce(max(_tidb_rowid), 0) FROM " ++ qualifiedName schema table

/-- `ALTER TABLE `%s`.`%s` AUTO_INCREMENT = %d` -/
def alterStatement (schema table : String) (autoInc : Int) : String :=
  "ALTER TABLE " ++ qualifiedName schema table ++ " AUTO_INCREMENT = " ++ toString autoInc

/-- `SHOW TABLE `%s`.`%s` NEXT_ROW_ID` -/
def nextRowIDStatement (schema table : String) : String :=
  "SHOW TABLE " ++ qualifiedName schema table ++ " NEXT_ROW_ID"

/-! ## Observable events of a run -/

/-- One observable event of a run: a stdout line (`fmt.Println` /
`fmt.Printf`), a log line (the `log` package), a connection attempt, a query
or statement sent to the collaborator, or a fatal exit (`log.Fatalf`). -/
inductive Event where
  | printLn (line : String)
  | logMsg (line : String)
  | connectDB (dsnText : String)
  | sqlQuery (stmt : String)
  | sqlExec (stmt : String)
  | fatalExit (msg : String)
deriving DecidableEq, Repr

/-- Whether the event is a statement execution (`db.Exec`). -/
def Event.isExec : Event → Bool
  | .sqlExec _ => true
  | _ => false

/-- Whether the event touches the database side at all: a connection
attempt, a query, or a statement execution. -/
def Event.isDBSide : Event → Bool
  | .connectDB _ => true
  | .sqlQuery _ => true
  | .sqlExec _ => true
  | _ => false

/-- Whether the event is a stdout line. -/
def Event.isOutput : Event → Bool
  | .printLn _ => true
  | _ => false

/-! ## getMaxRowID -/

/-- `getMaxRowID` (identical in both versions): run the max-row-id query;
on the unknown-column error (code 1054) return `(0, nil)`; on any other
error return the error (the scanned variable keeps its zero value); on
success return the scanned value. -/
def getMaxRowID (db : DBConn) (schema table : String) : Int × Option SQLError :=
  match db.maxRowIDResult schema table with
  | .ok v => (v, none)
  | .error e => if isUnknownColumn e then (0, none) else (0, some e)

/-! ## The collection pass (part_000 `main`, steps 3–4) -/

/-- The fact collected per table by the mode-based version:
schema, table, and the computed `AutoInc = maxID + 1`. -/
structure tableInfo where
  Schema : String
  Table : String
  AutoInc : Int
deriving DecidableEq, Repr

/-- The log line `!    Skipping table %s.%s: %v.` -/
def skipTableMsg (schema table : String) (e : SQLError) : String :=
  "!    Skipping table " ++ schema ++ "." ++ table ++ ": " ++ e.render ++ "."

/-- One iteration of the inner collection loop (part_000 lines 78–89):
query the max row id; when it is zero, skip the table — logging a warning
only when an error was returned; otherwise record the fact with
`AutoInc = maxID + 1`. -/
def collectTableStep (db : DBConn) (schema table : String) :
    Option tableInfo × List Event :=
  let r := getMaxRowID db schema table
  let qEv := Event.sqlQuery (maxRowIDStatement schema table)
  if r.1 = 0 then
    (none, [qEv] ++ (match r.2 with
      | some e => [Event.logMsg (skipTableMsg schema table e)]
      | none => []))
  else
    (some ⟨schema, table, r.1 + 1⟩, [qEv])

/-- The wrapped error text produced by `getTablesInSchema` for a failing
`SHOW TABLES` query. -/
def tablesQueryErrRender (schema : String) (e : SQLError) : String :=
  "querying tables for schema '" ++ schema ++ "': " ++ e.render

/-- The log line `! Error getting tables for schema %s: %v. Skipping schema.` -/
def skipSchemaMsg (schema : String) (e : SQLError) : String :=
  "! Error getting tables for schema " ++ schema ++ ": " ++
    tablesQueryErrRender schema e ++ ". Skipping schema."

/-- One iteration of the outer collection loop (part_000 lines 68–90):
log the schema header, enumerate its tables, on enumeration error log and
skip the schema, otherwise run the per-table step for each table in
enumeration order, accumulating facts and events. -/
def collectSchema (db : DBConn) (schema : String) : List tableInfo × List Event :=
  let headerEvs := [Event.logMsg ("# Processing schema: " ++ schema),
                    Event.sqlQuery (showTablesStatement schema)]
  match db.showTables schema with
  | .error e => ([], headerEvs ++ [Event.logMsg (skipSchemaMsg schema e)])
  | .ok tbls =>
      tbls.foldl (fun acc t =>
        let r := collectTableStep db schema t
        (acc.1 ++ r.1.toList, acc.2 ++ r.2)) (([] : List tableInfo), headerEvs)

/-- The whole collection pass over the schema list, in list order. -/
def collectPhase (db : DBConn) (schemas : List String) : List tableInfo × List Event :=
  schemas.foldl (fun acc s =>
    let r := collectSchema db s
    (acc.1 ++ r.1, acc.2 ++ r.2)) ([], [])

/-! ## compareAutoIncrement (part_000 lines 156–222) -/

/-- Upper-casing of one character, as `strings.ToUpper` maps the ASCII
range (column names here are ASCII). -/
def asciiUpperChar (c : Char) : Char :=
  if c.isLower then Char.ofNat (c.toNat - 32) else c

/-- `strings.ToUpper` on an ASCII column name. -/
def asciiUpper (s : String) : String :=
  String.mk (s.data.map asciiUpperChar)

/-- The column-index search of `compareAutoIncrement`: iterate over the
column names with their indices, recording (last occurrence wins) the index
of `ID_TYPE` and of `NEXT_GLOBAL_ROW_ID` after upper-casing; indices start
at `-1` (not found). -/
def colIndicesAux : Nat → Int × Int → List String → Int × Int
  | _, acc, [] => acc
  | i, acc, c :: rest =>
      colIndicesAux (i + 1)
        (if asciiUpper c == "ID_TYPE" then ((i : Int), acc.2)
         else if asciiUpper c == "NEXT_GLOBAL_ROW_ID" then (acc.1, (i : Int))
         else acc) rest

/-- `(idTypeIndex, nextIDIndex)` for a column list. -/
def colIndices (cols : List String) : Int × Int :=
  colIndicesAux 0 (-1, -1) cols

/-- Conversion of a driver value into the `*string` scan target
(`database/sql` formats integral values). -/
def cellToString : Cell → String
  | .str s => s
  | .int n => toString n

/-- Conversion of a driver value into the `*int64` scan target
(`database/sql` parses textual values, failing on non-numeric text). -/
def cellToInt : Cell → Except SQLError Int
  | .int n => .ok n
  | .str s =>
      match s.toInt? with
      | some n => .ok n
      | none => .error (.generic ("converting driver.Value type string (" ++ s ++ ") to a int64"))

/-- `rows.Scan(scanArgs...)` for one row: the row must have one value per
column; the value at `idTypeIndex` is scanned into a string, the one at
`nextIDIndex` into an int64, all others into `sql.RawBytes` (always
succeeds). -/
def scanRow (ncols idIdx nIdx : Nat) (row : List Cell) :
    Except SQLError (String × Int) :=
  if row.length ≠ ncols then
    .error (.generic "sql: expected different number of destination arguments")
  else
    match row.get? idIdx, row.get? nIdx with
    | some cid, some cn =>
        (match cellToInt cn with
         | .ok n => .ok (cellToString cid, n)
         | .error e => .error e)
    | _, _ => .error (.generic "scan: index out of range")

/-- The CSV line `%s,%s,%d,%d,%s` printed for a matched row: status `"ok"`
when `nextGlobalRowID >= t.AutoInc`, `"ERROR"` otherwise. -/
def csvLine (t : tableInfo) (nextGlobalRowID : Int) : String :=
  t.Schema ++ "," ++ t.Table ++ "," ++ toString t.AutoInc ++ "," ++
    toString nextGlobalRowID ++ "," ++
    (if nextGlobalRowID ≥ t.AutoInc then "ok" else "ERROR")

/-- The wrapped error text for a row-scanning failure. -/
def scanRowErrMsg (t : tableInfo) (e : SQLError) : String :=
  "scanning row for schema '" ++ t.Schema ++ "' table '" ++ t.Table ++ "': " ++ e.render

/-- The `rows.Next()` loop of `compareAutoIncrement`: scan each row (a scan
failure aborts the loop, keeping the lines already printed); skip rows whose
`ID_TYPE` value differs from `"_TIDB_ROWID"`; print a CSV line for each
matching row. -/
def compareRows (t : tableInfo) (ncols idIdx nIdx : Nat) :
    List (List Cell) → List Event × Option SQLError
  | [] => ([], none)
  | row :: rest =>
      match scanRow ncols idIdx nIdx row with
      | .error e => ([], some (.generic (scanRowErrMsg t e)))
      | .ok (idType, next) =>
          if idType = "_TIDB_ROWID" then
            let r := compareRows t ncols idIdx nIdx rest
            (Event.printLn (csvLine t next) :: r.1, r.2)
          else
            compareRows t ncols idIdx nIdx rest

/-- The error text for a metadata result set missing a required column. -/
def missingColsMsg (schema table : String) : String :=
  "required columns 'ID_TYPE' or 'NEXT_GLOBAL_ROW_ID' not found in output of " ++
    "SHOW TABLE NEXT_ROW_ID for '" ++ schema ++ "." ++ table ++ "'"

/-- The wrapped error text for a failing `SHOW TABLE ... NEXT_ROW_ID` query. -/
def compareQueryErrMsg (schema table : String) (e : SQLError) : String :=
  "comparing NEXT_ROW_ID for " ++ schema ++ "." ++ table ++ ": " ++ e.render

/-- The wrapped error text for an iteration error after the row loop. -/
def compareIterErrMsg (schema table : String) (e : SQLError) : String :=
  "iterating next row id results for '" ++ schema ++ "." ++ table ++ "': " ++ e.render

/-- `compareAutoIncrement`: query `SHOW TABLE ... NEXT_ROW_ID`; locate the
`ID_TYPE` and `NEXT_GLOBAL_ROW_ID` columns (error when either is absent);
scan all rows, printing one CSV line per row whose scheme is
`"_TIDB_ROWID"`; finally surface any iteration error.  Returns the run's
events and the error returned to `main`. -/
def compareAutoIncrement (db : DBConn) (t : tableInfo) :
    List Event × Option SQLError :=
  let qEv := Event.sqlQuery (nextRowIDStatement t.Schema t.Table)
  match db.nextRowID t.Schema t.Table with
  | .error e => ([qEv], some (.generic (compareQueryErrMsg t.Schema t.Table e)))
  | .ok rs =>
      let idx := colIndices rs.cols
      if idx.1 = -1 ∨ idx.2 = -1 then
        ([qEv], some (.generic (missingColsMsg t.Schema t.Table)))
      else
        let r := compareRows t rs.cols.length idx.1.toNat idx.2.toNat rs.rows
        match r.2 with
        | some e => (qEv :: r.1, some e)
        | none =>
            match rs.iterationErr with
            | some e => (qEv :: r.1, some (.generic (compareIterErrMsg t.Schema t.Table e)))
            | none => (qEv :: r.1, none)

/-! ## rebaseAutoIncrement (part_000 lines 147–154) -/

/-- The wrapped error text for a failing rebase statement. -/
def rebaseErrMsg (schema table : String) (e : SQLError) : String :=
  "rebasing AUTO_INCREMENT for " ++ schema ++ "." ++ table ++ ": " ++ e.render

/-- `rebaseAutoIncrement`: log the ALTER statement (`>>> %s;`), execute it,
and wrap any execution error. -/
def rebaseAutoIncrement (db : DBConn) (t : tableInfo) :
    List Event × Option SQLError :=
  let q := alterStatement t.Schema t.Table t.AutoInc
  ([Event.logMsg (">>> " ++ q ++ ";"), Event.sqlExec q],
   match db.execStmt q with
   | .ok _ => none
   | .error e => some (.generic (rebaseErrMsg t.Schema t.Table e)))

/-! ## The action phase (part_000 lines 94–105) -/

/-- The mode of operation. -/
inductive Mode where
  | compare
  | rebase
deriving DecidableEq, Repr

/-- The log line `!    Error executing for %s.%s: %v`. -/
def actionErrMsg (schema table : String) (e : SQLError) : String :=
  "!    Error executing for " ++ schema ++ "." ++ table ++ ": " ++ e.render

/-- One iteration of the action loop: run the mode's action for the fact
and log its error, if any. -/
def actionStep (db : DBConn) (mode : Mode) (t : tableInfo) : List Event :=
  let r := match mode with
    | .rebase => rebaseAutoIncrement db t
    | .compare => compareAutoIncrement db t
  r.1 ++ (match r.2 with
    | some e => [Event.logMsg (actionErrMsg t.Schema t.Table e)]
    | none => [])

/-- The whole action phase: the action loop over the collected facts, in
collection order. -/
def actionPhase (db : DBConn) (mode : Mode) (facts : List tableInfo) : List Event :=
  facts.foldl (fun acc t => acc ++ actionStep db mode t) []

/-! ## Startup and the full run (part_000 `main`) -/

/-- The mode switch at part_000 lines 40–49: only `"compare"` and
`"rebase"` are accepted. -/
def parseMode : String → Option Mode
  | "compare" => some Mode.compare
  | "rebase" => some Mode.rebase
  | _ => none

/-- The command-line inputs of the mode-based version. -/
structure Config where
  host : String := "127.0.0.1"
  port : String := "4000"
  user : String := "root"
  password : String := ""
  modeString : String := ""
  schemaList : String := ""
deriving DecidableEq, Repr

/-- The DSN `%s:%s@tcp(%s:%s)/`. -/
def dsn (c : Config) : String :=
  c.user ++ ":" ++ c.password ++ "@tcp(" ++ c.host ++ ":" ++ c.port ++ ")/"

/-- The environment of a run: what `sql.Open` yields (a connection, or a
fatal open error message). -/
structure Env where
  openDB : Except String DBConn

/-- Go rendering `%v` of a string slice: `[a b c]`. -/
def goSliceRender (l : List String) : String :=
  "[" ++ String.intercalate " " l ++ "]"

/-- The text `flag.Usage` prints (the flag package is an external
collaborator; only the fact that usage is printed matters). -/
def usageText : String := "Usage of force-rebase: (flag defaults)"

/-- The fatal message for an invalid mode. -/
def invalidModeMsg : String := "! Invalid mode specified. Use 'compare' or 'rebase'."

/-- The full run of the mode-based version: parse the mode (an invalid or
missing mode prints usage and exits fatally before anything else); in
compare mode print the CSV header; split the schema list on `","`; connect
(a failing open exits fatally); collect all facts; then act on each fact in
collection order. -/
def runMain (env : Env) (c : Config) : List Event :=
  match parseMode c.modeString with
  | none => [Event.logMsg usageText, Event.fatalExit invalidModeMsg]
  | some mode =>
      let headerEvs : List Event := match mode with
        | .compare => [Event.printLn "Schema,Table,Expected,Current,Status"]
        | .rebase => []
      let schemas := c.schemaList.splitOn ","
      headerEvs ++
      [Event.logMsg ("# Target Schemas: " ++ goSliceRender schemas),
       Event.connectDB (dsn c)] ++
      match env.openDB with
      | .error e => [Event.fatalExit ("! Error opening database connection: " ++ e)]
      | .ok db =>
          let col := collectPhase db schemas
          [Event.logMsg "# Database connection successful."] ++ col.2 ++
          [Event.logMsg "# Finished collecting max row IDs.",
           Event.logMsg "# Starting execution..."] ++
          actionPhase db mode col.1 ++
          [Event.logMsg "# Execution finished."]

/-! ## The dry-run variant (src/main.go) -/

/-- The map key of the dry-run variant. -/
structure tableIdentifier where
  Schema : String
  Table : String
deriving DecidableEq, Repr

/-- The log line `!    Error updating AUTO_INCREMENT for %s.%s: %v`. -/
def v0UpdateErrMsg (schema table : String) (e : SQLError) : String :=
  "!    Error updating AUTO_INCREMENT for " ++ schema ++ "." ++ table ++ ": " ++ e.render

/-- One iteration of the update loop of `src/main.go` (lines 102–114) over
a map entry `(tableID, maxID)`: compute `newAutoIncrement = maxID + 1`,
log the ALTER statement, and execute it unless `dry-run` is set (logging
any execution error). -/
def v0ActionStep (db : DBConn) (dryRun : Bool) (e : tableIdentifier × Int) :
    List Event :=
  let q := alterStatement e.1.Schema e.1.Table (e.2 + 1)
  [Event.logMsg (">>> " ++ q ++ ";")] ++
  (if dryRun then []
   else Event.sqlExec q ::
     (match db.execStmt q with
      | .ok _ => []
      | .error er => [Event.logMsg (v0UpdateErrMsg e.1.Schema e.1.Table er)]))

/-- The update loop of `src/main.go` over the entries of the hash map
`maxRowIDs`, taken in some iteration order.  Go's map iteration order is
unspecified: any permutation of the entry list is an admissible order, so
the loop is modelled as a function of the order actually served. -/
def v0ActionPhase (db : DBConn) (dryRun : Bool)
    (entries : List (tableIdentifier × Int)) : List Event :=
  entries.foldl (fun acc e => acc ++ v0ActionStep db dryRun e) []

/-! ## Server-side semantics of the max-row-id query -/

/-- The `_tidb_rowid` state of one table, as seen by the max-row-id query:
the table has no implicit row-id column (the query fails with MySQL error
1054), or it holds a list of row ids, or the query fails for another
reason. -/
inductive TableData where
  | noColumn
  | rowIDs (ids : List Int)
  | failure (e : SQLError)
deriving DecidableEq, Repr

/-- `coalesce(max(_tidb_rowid), 0)`: the maximum over the rows, `NULL`
(coalesced to 0) when the table is empty. -/
def coalesceMaxRowID : List Int → Int
  | [] => 0
  | x :: xs => xs.foldl max x

/-- What the server answers to
`SELECT coalesce(max(_tidb_rowid), 0) FROM s.t` given the table's state. -/
def serverMaxRowID : TableData → Except SQLError Int
  | .noColumn => .error (.mysql 1054 "Unknown column '_tidb_rowid' in 'field list'")
  | .rowIDs ids => .ok (coalesceMaxRowID ids)
  | .failure e => .error e

/-! ## Theorem-side projections -/

/-- The theorem-side projection of a row's scheme-name value (total; used
only where a scan is known to succeed). -/
def rowCellString (idx : Nat) (row : List Cell) : String :=
  cellToString (row.getD idx (.str ""))

/-- The theorem-side projection of a row's next-global-row-id value
(total; used only where a scan is known to succeed). -/
def rowCellInt (idx : Nat) (row : List Cell) : Int :=
  match row.get? idx with
  | some (Cell.int n) => n
  | some (Cell.str s) => (s.toInt?).getD 0
  | none => 0

/-! ## Concrete data for witnesses and counterexamples -/

/-- The metadata result set of the spec's compare example: an unrelated
scheme row, then the `_TIDB_ROWID` row with next value 50. -/
def specExampleRS : ResultSet :=
  { cols := ["ID_TYPE", "NEXT_GLOBAL_ROW_ID"],
    rows := [[Cell.str "OTHER", Cell.int 999], [Cell.str "_TIDB_ROWID", Cell.int 50]],
    iterationErr := none }

/-- `SHOW TABLES` responses of the demo database: schema `db1` holds table
`t1`; every other schema fails to enumerate. -/
def demoShowTables (s : String) : Except SQLError (List String) :=
  if s = "db1" then .ok ["t1"] else .error (.generic "no such schema")

/-- Max-row-id responses of the demo database: `db1.t1` has max row id 49;
everything else reports 0. -/
def demoMaxResult (s t : String) : Except SQLError Int :=
  if s = "db1" ∧ t = "t1" then .ok 49 else .ok 0

/-- The demo database used by the witnesses. -/
def demoDB : DBConn :=
  { showTables := demoShowTables,
    maxRowIDResult := demoMaxResult,
    nextRowID := fun _ _ => .ok specExampleRS,
    execStmt := fun _ => .ok () }

/-- A database whose next-row-id metadata lacks both required columns. -/
def missingColsDB : DBConn :=
  { showTables := demoShowTables,
    maxRowIDResult := demoMaxResult,
    nextRowID := fun _ _ => .ok (ResultSet.mk ["Foo"] [] none),
    execStmt := fun _ => .ok () }

/-! ## Helper lemmas -/

/-- A fold that appends a pair of lists per element is the pair of
concatenations, in element order. -/
theorem pairFoldl_eq {α β γ : Type} (f : α → List β × List γ) (l : List α)
    (acc : List β × List γ) :
    l.foldl (fun a x => (a.1 ++ (f x).1, a.2 ++ (f x).2)) acc
      = (acc.1 ++ l.flatMap (fun x => (f x).1),
         acc.2 ++ l.flatMap (fun x => (f x).2)) := by
  induction l generalizing acc with
  | nil => cases acc; simp
  | cons x xs ih => simp [ih, List.append_assoc]

/-- A fold that appends a list per element is the concatenation, in element
order. -/
theorem foldlAppend_eq {α β : Type} (f : α → List β) (l : List α) (acc : List β) :
    l.foldl (fun a x => a ++ f x) acc = acc ++ l.flatMap f := by
  induction l generalizing acc with
  | nil => simp
  | cons x xs ih => simp [ih, List.append_assoc]

/-- The facts collected for one schema: none on enumeration failure,
otherwise one optional fact per enumerated table, in enumeration order. -/
theorem collectSchema_fst (db : DBConn) (s : String) :
    (collectSchema db s).1 = (match db.showTables s with
      | .error _ => []
      | .ok tbls => tbls.flatMap (fun t => ((collectTableStep db s t).1).toList)) := by
  unfold collectSchema
  cases db.showTables s with
  | error e => rfl
  | ok tbls =>
      simp only []
      rw [pairFoldl_eq (fun t => (((collectTableStep db s t).1).toList,
            (collectTableStep db s t).2))]
      simp

/-- The events of one schema's collection pass. -/
theorem collectSchema_snd (db : DBConn) (s : String) :
    (collectSchema db s).2 = (match db.showTables s with
      | .error e =>
          [Event.logMsg ("# Processing schema: " ++ s),
           Event.sqlQuery (showTablesStatement s),
           Event.logMsg (skipSchemaMsg s e)]
      | .ok tbls =>
          [Event.logMsg ("# Processing schema: " ++ s),
           Event.sqlQuery (showTablesStatement s)] ++
          tbls.flatMap (fun t => (collectTableStep db s t).2)) := by
  unfold collectSchema
  cases db.showTables s with
  | error e => rfl
  | ok tbls =>
      simp only []
      rw [pairFoldl_eq (fun t => (((collectTableStep db s t).1).toList,
            (collectTableStep db s t).2))]

/-- The collection pass is the concatenation over the schema list, in list
order, of each schema's facts and events. -/
theorem collectPhase_eq (db : DBConn) (schemas : List String) :
    collectPhase db schemas
      = (schemas.flatMap (fun s => (collectSchema db s).1),
         schemas.flatMap (fun s => (collectSchema db s).2)) := by
  unfold collectPhase
  rw [pairFoldl_eq (fun s => ((collectSchema db s).1, (collectSchema db s).2))]
  simp

/-- The action phase is the concatenation, in fact order, of each fact's
action events. -/
theorem actionPhase_eq (db : DBConn) (mode : Mode) (facts : List tableInfo) :
    actionPhase db mode facts = facts.flatMap (actionStep db mode) := by
  unfold actionPhase
  rw [foldlAppend_eq]
  simp

/-- The update loop of the dry-run variant is the concatenation, in served
order, of each entry's events. -/
theorem v0ActionPhase_eq (db : DBConn) (dryRun : Bool)
    (entries : List (tableIdentifier × Int)) :
    v0ActionPhase db dryRun entries = entries.flatMap (v0ActionStep db dryRun) := by
  unfold v0ActionPhase
  rw [foldlAppend_eq]
  simp

/-- The fact produced by one table step: none when the computed max is
zero, otherwise the fact with `AutoInc = maxID + 1`. -/
theorem collectTableStep_fst (db : DBConn) (s t : String) :
    (collectTableStep db s t).1
      = (if (getMaxRowID db s t).1 = 0 then none
         else some ⟨s, t, (getMaxRowID db s t).1 + 1⟩) := by
  unfold collectTableStep
  by_cases h : (getMaxRowID db s t).1 = 0 <;> simp [h]

/-- Membership in the collected fact list, characterized: a fact is
collected exactly for a listed schema, an enumerated table, and a non-zero
computed max row id. -/
theorem mem_collectPhase_fst {db : DBConn} {schemas : List String} {f : tableInfo} :
    f ∈ (collectPhase db schemas).1 ↔
      ∃ s ∈ schemas, ∃ tbls, db.showTables s = .ok tbls ∧
        ∃ t ∈ tbls, (getMaxRowID db s t).1 ≠ 0 ∧
          f = ⟨s, t, (getMaxRowID db s t).1 + 1⟩ := by
  rw [collectPhase_eq]
  simp only [List.mem_flatMap]
  constructor
  · rintro ⟨s, hs, hf⟩
    rw [collectSchema_fst] at hf
    rcases hq : db.showTables s with e | tbls
    · rw [hq] at hf; simp at hf
    · rw [hq] at hf
      simp only [List.mem_flatMap, Option.mem_toList, Option.mem_def] at hf
      obtain ⟨t, ht, hstep⟩ := hf
      rw [collectTableStep_fst] at hstep
      by_cases hz : (getMaxRowID db s t).1 = 0
      · rw [if_pos hz] at hstep; cases hstep
      · rw [if_neg hz] at hstep
        exact ⟨s, hs, tbls, hq, t, ht, hz, (Option.some.injEq _ _ ▸ hstep).symm⟩
  · rintro ⟨s, hs, tbls, hq, t, ht, hz, rfl⟩
    refine ⟨s, hs, ?_⟩
    rw [collectSchema_fst, hq]
    simp only [List.mem_flatMap, Option.mem_toList, Option.mem_def]
    refine ⟨t, ht, ?_⟩
    rw [collectTableStep_fst, if_neg hz]

/-- The `ID_TYPE` index stays `-1` exactly while no column name
upper-cases to `ID_TYPE`. -/
theorem colIndicesAux_fst (l : List String) :
    ∀ (i : Nat) (acc : Int × Int),
      (colIndicesAux i acc l).1 = -1 ↔
        (acc.1 = -1 ∧ ∀ c ∈ l, asciiUpper c ≠ "ID_TYPE") := by
  induction l with
  | nil => intro i acc; simp [colIndicesAux]
  | cons c rest ih =>
      intro i acc
      unfold colIndicesAux
      by_cases h1 : asciiUpper c = "ID_TYPE"
      · simp only [h1]
        rw [if_pos (by simp)]
        rw [ih]
        constructor
        · rintro ⟨hi, -⟩; omega
        · rintro ⟨-, hall⟩; exact absurd h1 (hall c (List.mem_cons_self c rest))
      · rw [if_neg (by simpa using h1)]
        by_cases h2 : asciiUpper c = "NEXT_GLOBAL_ROW_ID"
        · rw [if_pos (by simpa using h2)]
          rw [ih]
          simp [h1]
        · rw [if_neg (by simpa using h2)]
          rw [ih]
          simp [h1]

/-- The `NEXT_GLOBAL_ROW_ID` index stays `-1` exactly while no column name
upper-cases to `NEXT_GLOBAL_ROW_ID`. -/
theorem colIndicesAux_snd (l : List String) :
    ∀ (i : Nat) (acc : Int × Int),
      (colIndicesAux i acc l).2 = -1 ↔
        (acc.2 = -1 ∧ ∀ c ∈ l, asciiUpper c ≠ "NEXT_GLOBAL_ROW_ID") := by
  induction l with
  | nil => intro i acc; simp [colIndicesAux]
  | cons c rest ih =>
      intro i acc
      unfold colIndicesAux
      by_cases h1 : asciiUpper c = "ID_TYPE"
      · rw [if_pos (by simpa using h1)]
        rw [ih]
        have : asciiUpper c ≠ "NEXT_GLOBAL_ROW_ID" := by rw [h1]; decide
        simp [this]
      · rw [if_neg (by simpa using h1)]
        by_cases h2 : asciiUpper c = "NEXT_GLOBAL_ROW_ID"
        · rw [if_pos (by simpa using h2)]
          rw [ih]
          constructor
          · rintro ⟨hi, -⟩; omega
          · rintro ⟨-, hall⟩; exact absurd h2 (hall c (List.mem_cons_self c rest))
        · rw [if_neg (by simpa using h2)]
          rw [ih]
          simp [h2]

/-- A successful scan reads the string at the id-type index and the
integer at the next-id index. -/
theorem scanRow_ok {ncols idIdx nIdx : Nat} {row : List Cell} {p : String × Int}
    (h : scanRow ncols idIdx nIdx row = .ok p) :
    ∃ cid cn, row.get? idIdx = some cid ∧ row.get? nIdx = some cn ∧
      cellToString cid = p.1 ∧ cellToInt cn = .ok p.2 := by
  unfold scanRow at h
  split at h
  · cases h
  · split at h
    · rename_i cid cn hcid hcn
      split at h
      · rename_i n hn
        cases h
        exact ⟨cid, cn, hcid, hcn, rfl, by rw [hn]⟩
      · cases h
    · cases h

/-- A successful scan returns exactly the projections. -/
theorem scanRow_ok_proj {ncols idIdx nIdx : Nat} {row : List Cell} {p : String × Int}
    (h : scanRow ncols idIdx nIdx row = .ok p) :
    p = (rowCellString idIdx row, rowCellInt nIdx row) := by
  obtain ⟨cid, cn, h1, h2, h3, h4⟩ := scanRow_ok h
  have hs : rowCellString idIdx row = p.1 := by
    rw [← h3]
    simp [rowCellString, List.getD_eq_getElem?_getD, ← List.get?_eq_getElem?, h1]
  have hn : rowCellInt nIdx row = p.2 := by
    cases cn with
    | int n =>
        simp only [cellToInt, Except.ok.injEq] at h4
        simp [rowCellInt, ← List.get?_eq_getElem?, h2, h4]
    | str s =>
        rcases ht : s.toInt? with - | n
        · simp [cellToInt, ht] at h4
        · simp only [cellToInt, ht, Except.ok.injEq] at h4
          simp [rowCellInt, ← List.get?_eq_getElem?, h2, ht, h4]
  rw [hs, hn]

/-- When every row scans successfully, the row loop prints exactly one CSV
line per row whose scheme is `"_TIDB_ROWID"`, in row order, and returns no
error. -/
theorem compareRows_eq (t : tableInfo) (ncols idIdx nIdx : Nat)
    (rows : List (List Cell))
    (h : ∀ row ∈ rows, ∃ p, scanRow ncols idIdx nIdx row = .ok p) :
    compareRows t ncols idIdx nIdx rows =
      ((rows.filter (fun row => rowCellString idIdx row == "_TIDB_ROWID")).map
        (fun row => Event.printLn (csvLine t (rowCellInt nIdx row))), none) := by
  induction rows with
  | nil => rfl
  | cons row rest ih =>
      obtain ⟨p, hp⟩ := h row (List.mem_cons_self row rest)
      have hrest := ih (fun r hr => h r (List.mem_cons_of_mem row hr))
      have hproj := scanRow_ok_proj hp
      obtain ⟨a, b⟩ := p
      injection hproj with ha hb
      subst ha
      subst hb
      unfold compareRows
      rw [hp]
      dsimp only
      by_cases hm : rowCellString idIdx row = "_TIDB_ROWID"
      · rw [if_pos hm, hrest]
        have hfilter : (rowCellString idIdx row == "_TIDB_ROWID") = true := by
          simp [hm]
        simp [List.filter_cons, hfilter]
      · rw [if_neg hm, hrest]
        have hfilter : (rowCellString idIdx row == "_TIDB_ROWID") = false := by
          simpa using hm
        simp [List.filter_cons, hfilter]

/-- The start value bounds a fold of `max` from below. -/
theorem le_foldlMax (l : List Int) (a : Int) : a ≤ l.foldl max a := by
  induction l generalizing a with
  | nil => simp
  | cons x xs ih => exact le_trans (le_max_left a x) (ih (max a x))

/-- A nonempty list of positive row ids has a positive coalesced maximum. -/
theorem coalesceMaxRowID_pos {ids : List Int} (hne : ids ≠ [])
    (hpos : ∀ x ∈ ids, 1 ≤ x) : 1 ≤ coalesceMaxRowID ids := by
  cases ids with
  | nil => exact absurd rfl hne
  | cons x xs =>
      exact le_trans (hpos x (List.mem_cons_self x xs)) (le_foldlMax xs x)

/-- The computed max row id is never negative whenever every successful
query result is nonnegative (error paths return the zero value). -/
theorem getMaxRowID_nonneg {db : DBConn}
    (hnn : ∀ s t v, db.maxRowIDResult s t = .ok v → 0 ≤ v) (s t : String) :
    0 ≤ (getMaxRowID db s t).1 := by
  unfold getMaxRowID
  cases hq : db.maxRowIDResult s t with
  | ok v => simpa using hnn s t v hq
  | error e => by_cases hu : isUnknownColumn e <;> simp [hu]

/-! ## C1 -/

/-- C1: for every table whose observed maximum row id `m` is greater than
zero, the proposed AUTO_INCREMENT value recorded in the fact — and used in
the rebase ALTER statement — equals `m + 1`: the fact `⟨s, t, m + 1⟩` is
collected, every fact recorded for `(s, t)` carries exactly `m + 1`, and
the rebase phase executes `ALTER TABLE ... AUTO_INCREMENT = m + 1`. -/
theorem proposed_autoIncrement_eq_max_plus_one
    (db : DBConn) (schemas : List String) (s t : String)
    (tbls : List String) (m : Int)
    (hs : s ∈ schemas) (hq : db.showTables s = .ok tbls) (ht : t ∈ tbls)
    (hm : (getMaxRowID db s t).1 = m) (hpos : 0 < m) :
    tableInfo.mk s t (m + 1) ∈ (collectPhase db schemas).1
    ∧ (∀ a : Int, tableInfo.mk s t a ∈ (collectPhase db schemas).1 → a = m + 1)
    ∧ Event.sqlExec (alterStatement s t (m + 1)) ∈
        actionPhase db Mode.rebase (collectPhase db schemas).1 := by
  have hz : (getMaxRowID db s t).1 ≠ 0 := by omega
  have hmem : tableInfo.mk s t (m + 1) ∈ (collectPhase db schemas).1 := by
    rw [mem_collectPhase_fst]
    exact ⟨s, hs, tbls, hq, t, ht, hz, by rw [hm]⟩
  refine ⟨hmem, ?_, ?_⟩
  · intro a ha
    rw [mem_collectPhase_fst] at ha
    obtain ⟨s', -, tbls', -, t', -, -, heq⟩ := ha
    injection heq with e1 e2 e3
    subst e1
    subst e2
    rw [e3, hm]
  · rw [actionPhase_eq]
    rw [List.mem_flatMap]
    refine ⟨tableInfo.mk s t (m + 1), hmem, ?_⟩
    simp [actionStep, rebaseAutoIncrement]

/-- C1 witness: in the demo database, `db1.t1` has max row id 49 and the
fact recorded for it carries 50. -/
theorem proposed_autoIncrement_eq_max_plus_one_witness :
    ("db1" ∈ ["db1"] ∧ demoDB.showTables "db1" = .ok ["t1"] ∧ "t1" ∈ ["t1"]
      ∧ (getMaxRowID demoDB "db1" "t1").1 = 49 ∧ (0 : Int) < 49)
    ∧ (tableInfo.mk "db1" "t1" 50 ∈ (collectPhase demoDB ["db1"]).1
       ∧ (∀ a : Int, tableInfo.mk "db1" "t1" a ∈ (collectPhase demoDB ["db1"]).1 → a = 50)
       ∧ Event.sqlExec (alterStatement "db1" "t1" 50) ∈
           actionPhase demoDB Mode.rebase (collectPhase demoDB ["db1"]).1) :=
  ⟨⟨by decide, by decide, by decide, by decide, by decide⟩,
   proposed_autoIncrement_eq_max_plus_one demoDB ["db1"] "db1" "t1" ["t1"] 49
     (by decide) (by decide) (by decide) (by decide) (by decide)⟩

/-! ## C3 -/

/-- C3: assuming every successful max-row-id query result is nonnegative
(row ids are nonnegative), a fact is recorded for `(s, t)` exactly when `s`
is listed, `t` is enumerated and the observed maximum row id is strictly
positive; and when the observed maximum is zero, no fact exists for the
table, so the action phase is unchanged by removing that table — no rebase
or compare action is performed for it. -/
theorem fact_iff_positive_max
    (db : DBConn) (schemas : List String) (mode : Mode) (s t : String)
    (hnn : ∀ s' t' v, db.maxRowIDResult s' t' = .ok v → 0 ≤ v) :
    ((∃ a : Int, tableInfo.mk s t a ∈ (collectPhase db schemas).1) ↔
       (s ∈ schemas ∧ ∃ tbls, db.showTables s = .ok tbls ∧ t ∈ tbls ∧
         0 < (getMaxRowID db s t).1))
    ∧ ((getMaxRowID db s t).1 = 0 →
        (collectPhase db schemas).1.filter
            (fun f => !(f.Schema == s && f.Table == t)) = (collectPhase db schemas).1
        ∧ actionPhase db mode (collectPhase db schemas).1
            = actionPhase db mode ((collectPhase db schemas).1.filter
                (fun f => !(f.Schema == s && f.Table == t)))) := by
  have hnofact : ∀ f ∈ (collectPhase db schemas).1,
      (getMaxRowID db f.Schema f.Table).1 ≠ 0 := by
    intro f hf
    rw [mem_collectPhase_fst] at hf
    obtain ⟨s', -, tbls', -, t', -, hz, heq⟩ := hf
    rw [heq]
    exact hz
  constructor
  · constructor
    · rintro ⟨a, ha⟩
      rw [mem_collectPhase_fst] at ha
      obtain ⟨s', hs', tbls', hq', t', ht', hz', heq⟩ := ha
      injection heq with e1 e2 e3
      subst e1
      subst e2
      have := getMaxRowID_nonneg hnn s t
      exact ⟨hs', tbls', hq', ht', by omega⟩
    · rintro ⟨hs, tbls, hq, ht, hpos⟩
      refine ⟨(getMaxRowID db s t).1 + 1, ?_⟩
      rw [mem_collectPhase_fst]
      exact ⟨s, hs, tbls, hq, t, ht, by omega, rfl⟩
  · intro hzero
    have hfilter : (collectPhase db schemas).1.filter
        (fun f => !(f.Schema == s && f.Table == t)) = (collectPhase db schemas).1 := by
      rw [List.filter_eq_self]
      intro f hf
      have hne := hnofact f hf
      cases hA : (f.Schema == s) <;> cases hB : (f.Table == t) <;>
        simp_all [beq_iff_eq]
      exact hnofact f hf (by rw [hA, hB]; exact hzero)
    exact ⟨hfilter, by rw [hfilter]⟩

/-- C3 witness: in the demo database, `db1.t1` (max 49) gets a fact, and
for the table `db1.t2` (reported max 0) no fact exists and the action
phase is unchanged by removing it. -/
theorem fact_iff_positive_max_witness :
    ((∃ a : Int, tableInfo.mk "db1" "t2" a ∈ (collectPhase demoDB ["db1"]).1) ↔
       ("db1" ∈ ["db1"] ∧ ∃ tbls, demoDB.showTables "db1" = .ok tbls ∧ "t2" ∈ tbls ∧
         0 < (getMaxRowID demoDB "db1" "t2").1))
    ∧ ((getMaxRowID demoDB "db1" "t2").1 = 0 →
        (collectPhase demoDB ["db1"]).1.filter
            (fun f => !(f.Schema == "db1" && f.Table == "t2")) = (collectPhase demoDB ["db1"]).1
        ∧ actionPhase demoDB Mode.rebase (collectPhase demoDB ["db1"]).1
            = actionPhase demoDB Mode.rebase ((collectPhase demoDB ["db1"]).1.filter
                (fun f => !(f.Schema == "db1" && f.Table == "t2")))) :=
  fact_iff_positive_max demoDB ["db1"] Mode.rebase "db1" "t2"
    (fun s' t' v h => by
      unfold demoDB demoMaxResult at h
      dsimp only at h
      split at h <;> (injection h with e; omega))

/-! ## C4 -/

/-- C4: against the server semantics of the max-row-id query, and assuming
row ids are at least 1 and that non-column failures do not carry code 1054:
the table step is a silent skip (no fact, no log line) exactly when the
table has no implicit row-id column (error 1054) or is empty (NULL
coalesced to 0); any other query failure logs a warning identifying the
table and still produces no fact; a nonempty table is not skipped. -/
theorem maxRowID_skip_classification
    (db : DBConn) (s t : String) (td : TableData)
    (hdb : db.maxRowIDResult s t = serverMaxRowID td)
    (hpos : ∀ ids, td = .rowIDs ids → ∀ x ∈ ids, 1 ≤ x)
    (herr : ∀ e, td = .failure e → isUnknownColumn e = false) :
    ((collectTableStep db s t = (none, [Event.sqlQuery (maxRowIDStatement s t)]))
       ↔ (td = .noColumn ∨ td = .rowIDs []))
    ∧ (∀ e, td = .failure e →
        collectTableStep db s t =
          (none, [Event.sqlQuery (maxRowIDStatement s t),
                  Event.logMsg (skipTableMsg s t e)]))
    ∧ (∀ ids, td = .rowIDs ids → ids ≠ [] →
        collectTableStep db s t =
          (some ⟨s, t, coalesceMaxRowID ids + 1⟩,
           [Event.sqlQuery (maxRowIDStatement s t)])) := by
  cases td with
  | noColumn =>
      have hg : getMaxRowID db s t = (0, none) := by
        unfold getMaxRowID
        rw [hdb]
        simp [serverMaxRowID, isUnknownColumn]
      refine ⟨?_, ?_, ?_⟩
      · simp [collectTableStep, hg]
      · intro e he; cases he
      · intro ids he; cases he
  | rowIDs ids =>
      have hg : getMaxRowID db s t = (coalesceMaxRowID ids, none) := by
        unfold getMaxRowID
        rw [hdb]
        rfl
      cases ids with
      | nil =>
          refine ⟨?_, ?_, ?_⟩
          · simp [collectTableStep, hg, coalesceMaxRowID]
          · intro e he; cases he
          · intro ids' he hne
            injection he with e1
            exact absurd e1.symm hne
      | cons x xs =>
          have hpos' : 1 ≤ coalesceMaxRowID (x :: xs) :=
            coalesceMaxRowID_pos (by simp) (hpos (x :: xs) rfl)
          have hz : coalesceMaxRowID (x :: xs) ≠ 0 := by omega
          refine ⟨?_, ?_, ?_⟩
          · constructor
            · intro hstep
              exfalso
              simp [collectTableStep, hg, hz] at hstep
            · rintro (h | h) <;> cases h
          · intro e he; cases he
          · intro ids' he hne
            injection he with e1
            subst e1
            simp [collectTableStep, hg, hz]
  | failure e =>
      have hg : getMaxRowID db s t = (0, some e) := by
        unfold getMaxRowID
        rw [hdb]
        simp [serverMaxRowID, herr e rfl]
      refine ⟨?_, ?_, ?_⟩
      · constructor
        · intro hstep
          exfalso
          simp [collectTableStep, hg] at hstep
        · rintro (h | h) <;> cases h
      · intro e' he
        injection he with e1
        subst e1
        simp [collectTableStep, hg]
      · intro ids he; cases he

/-- C4 witness: instantiations of the skip classification at a table with
no implicit row-id column, an empty table, a failing table, and a table
with rows `[3, 7]`. -/
theorem maxRowID_skip_classification_witness :
    ((collectTableStep demoDB "db2" "u" = (none, [Event.sqlQuery (maxRowIDStatement "db2" "u")]))
       ↔ (TableData.rowIDs [] = TableData.noColumn ∨ TableData.rowIDs [] = TableData.rowIDs [])) :=
  (maxRowID_skip_classification demoDB "db2" "u" (TableData.rowIDs [])
    (by decide)
    (fun ids h => by cases h; simp)
    (fun e h => by cases h)).1

/-! ## C2 -/

/-- C2 counterexample: on the spec's own compare example (rows
`[{scheme: OTHER, next: 999}, {scheme: _TIDB_ROWID, next: 50}]`, expected
50) the emitted record is `db1,t1,50,50,ok` — the status literal is the
lowercase `"ok"`, not `"OK"` as the claim states, so the record the claim
describes is never emitted. (`ERROR` is uppercase in the code, so the case
of the status literal is meaningful.) -/
theorem compare_status_literal_counterexample :
    compareAutoIncrement demoDB (tableInfo.mk "db1" "t1" 50) =
      ([Event.sqlQuery (nextRowIDStatement "db1" "t1"),
        Event.printLn "db1,t1,50,50,ok"], none)
    ∧ Event.printLn "db1,t1,50,50,OK" ∉
        (compareAutoIncrement demoDB (tableInfo.mk "db1" "t1" 50)).1 := by
  constructor
  · rfl
  · decide

/-- C2 (amended: the OK status literal is the lowercase `"ok"`): in compare
mode, for a fact with expected value `e`, when the metadata query succeeds,
both required columns are present, the result set iterates cleanly and
every row scans, the emitted events are exactly one CSV record per row
whose scheme-name column equals `"_TIDB_ROWID"` (other rows contribute
nothing), each record carrying status `"ok"` iff its next-global-row-id is
`≥ e` and `"ERROR"` otherwise (by `csvLine`), and no error is raised; in
particular a record is emitted iff some row matches, and zero output lines
are produced when no row matches. -/
theorem compare_emission_characterization
    (db : DBConn) (t : tableInfo) (rs : ResultSet)
    (hq : db.nextRowID t.Schema t.Table = .ok rs)
    (hie : rs.iterationErr = none)
    (hi : (colIndices rs.cols).1 ≠ -1)
    (hj : (colIndices rs.cols).2 ≠ -1)
    (hscan : ∀ row ∈ rs.rows, ∃ p, scanRow rs.cols.length
        (colIndices rs.cols).1.toNat (colIndices rs.cols).2.toNat row = .ok p) :
    compareAutoIncrement db t =
      (Event.sqlQuery (nextRowIDStatement t.Schema t.Table) ::
         (rs.rows.filter (fun row =>
             rowCellString (colIndices rs.cols).1.toNat row == "_TIDB_ROWID")).map
           (fun row => Event.printLn (csvLine t (rowCellInt (colIndices rs.cols).2.toNat row))),
       none)
    ∧ ((∃ ev ∈ (compareAutoIncrement db t).1, ev.isOutput) ↔
        ∃ row ∈ rs.rows,
          rowCellString (colIndices rs.cols).1.toNat row = "_TIDB_ROWID") := by
  have hrows := compareRows_eq t rs.cols.length
    (colIndices rs.cols).1.toNat (colIndices rs.cols).2.toNat rs.rows hscan
  have hmain : compareAutoIncrement db t =
      (Event.sqlQuery (nextRowIDStatement t.Schema t.Table) ::
         (rs.rows.filter (fun row =>
             rowCellString (colIndices rs.cols).1.toNat row == "_TIDB_ROWID")).map
           (fun row => Event.printLn (csvLine t (rowCellInt (colIndices rs.cols).2.toNat row))),
       none) := by
    unfold compareAutoIncrement
    rw [hq]
    dsimp only
    rw [if_neg (by tauto)]
    rw [hrows]
    rw [hie]
  refine ⟨hmain, ?_⟩
  rw [hmain]
  constructor
  · rintro ⟨ev, hev, hout⟩
    rcases List.mem_cons.mp hev with h | h
    · subst h; cases hout
    · obtain ⟨row, hrow, -⟩ := List.mem_map.mp h
      exact ⟨row, (List.mem_filter.mp hrow).1,
        by simpa using (List.mem_filter.mp hrow).2⟩
  · rintro ⟨row, hrow, hmatch⟩
    refine ⟨Event.printLn (csvLine t (rowCellInt (colIndices rs.cols).2.toNat row)), ?_, rfl⟩
    exact List.mem_cons_of_mem _ (List.mem_map_of_mem _
      (List.mem_filter.mpr ⟨hrow, by simpa using hmatch⟩))

/-- C2 witness: on the spec example with expected 51, one record is
emitted for the `_TIDB_ROWID` row (status `ERROR`, since 50 < 51), and the
`OTHER` row contributes nothing. -/
theorem compare_emission_characterization_witness :
    (compareAutoIncrement demoDB (tableInfo.mk "db1" "t1" 51) =
      (Event.sqlQuery (nextRowIDStatement "db1" "t1") ::
         (specExampleRS.rows.filter (fun row =>
             rowCellString (colIndices specExampleRS.cols).1.toNat row == "_TIDB_ROWID")).map
           (fun row => Event.printLn (csvLine (tableInfo.mk "db1" "t1" 51)
               (rowCellInt (colIndices specExampleRS.cols).2.toNat row))),
       none))
    ∧ compareAutoIncrement demoDB (tableInfo.mk "db1" "t1" 51) =
        ([Event.sqlQuery (nextRowIDStatement "db1" "t1"),
          Event.printLn "db1,t1,51,50,ERROR"], none) :=
  ⟨(compare_emission_characterization demoDB (tableInfo.mk "db1" "t1" 51)
      specExampleRS rfl rfl (by decide) (by decide)
      (fun row hrow => by
        rcases List.mem_cons.mp hrow with h | h
        · exact ⟨("OTHER", 999), by rw [h]; rfl⟩
        · rcases List.mem_cons.mp h with h2 | h2
          · exact ⟨("_TIDB_ROWID", 50), by rw [h2]; rfl⟩
          · cases h2)).1,
   by rfl⟩

/-! ## C6 -/

/-- C6: in compare mode, when the metadata result set lacks the
scheme-name column (`ID_TYPE`) or the next-global-value column
(`NEXT_GLOBAL_ROW_ID`), the comparison for that table fails with the
missing-columns error, no output record is emitted for it, and the action
loop logs the error and continues with the facts that follow. -/
theorem compare_missing_columns_error
    (db : DBConn) (t : tableInfo) (rs : ResultSet)
    (pre post : List tableInfo)
    (hq : db.nextRowID t.Schema t.Table = .ok rs)
    (hmiss : (∀ c ∈ rs.cols, asciiUpper c ≠ "ID_TYPE") ∨
             (∀ c ∈ rs.cols, asciiUpper c ≠ "NEXT_GLOBAL_ROW_ID")) :
    compareAutoIncrement db t =
      ([Event.sqlQuery (nextRowIDStatement t.Schema t.Table)],
       some (.generic (missingColsMsg t.Schema t.Table)))
    ∧ (∀ line, Event.printLn line ∉ (compareAutoIncrement db t).1)
    ∧ actionPhase db Mode.compare (pre ++ t :: post) =
        actionPhase db Mode.compare pre ++
        [Event.sqlQuery (nextRowIDStatement t.Schema t.Table),
         Event.logMsg (actionErrMsg t.Schema t.Table
           (.generic (missingColsMsg t.Schema t.Table)))] ++
        actionPhase db Mode.compare post := by
  have hidx : (colIndices rs.cols).1 = -1 ∨ (colIndices rs.cols).2 = -1 := by
    rcases hmiss with h | h
    · exact Or.inl ((colIndicesAux_fst rs.cols 0 (-1, -1)).mpr ⟨rfl, h⟩)
    · exact Or.inr ((colIndicesAux_snd rs.cols 0 (-1, -1)).mpr ⟨rfl, h⟩)
  have hmain : compareAutoIncrement db t =
      ([Event.sqlQuery (nextRowIDStatement t.Schema t.Table)],
       some (ForceRebase.SQLError.generic (missingColsMsg t.Schema t.Table))) := by
    unfold compareAutoIncrement
    rw [hq]
    dsimp only
    rw [if_pos hidx]
  have hstep : actionStep db Mode.compare t =
      [Event.sqlQuery (nextRowIDStatement t.Schema t.Table),
       Event.logMsg (actionErrMsg t.Schema t.Table
         (.generic (missingColsMsg t.Schema t.Table)))] := by
    unfold actionStep
    rw [hmain]
    rfl
  refine ⟨hmain, ?_, ?_⟩
  · intro line hline
    rw [hmain] at hline
    simp at hline
  · rw [actionPhase_eq, actionPhase_eq, actionPhase_eq,
        List.flatMap_append, List.flatMap_cons, hstep, List.append_assoc]

/-- C6 witness: a result set whose only column is `Foo` makes the compare
action fail with the missing-columns error and the action loop continue. -/
theorem compare_missing_columns_error_witness :
    compareAutoIncrement missingColsDB (tableInfo.mk "db1" "t1" 50) =
      ([Event.sqlQuery (nextRowIDStatement "db1" "t1")],
       some (.generic (missingColsMsg "db1" "t1")))
    ∧ (∀ line, Event.printLn line ∉
        (compareAutoIncrement missingColsDB (tableInfo.mk "db1" "t1" 50)).1)
    ∧ actionPhase missingColsDB Mode.compare ([] ++ tableInfo.mk "db1" "t1" 50 :: []) =
        actionPhase missingColsDB Mode.compare [] ++
        [Event.sqlQuery (nextRowIDStatement "db1" "t1"),
         Event.logMsg (actionErrMsg "db1" "t1"
           (.generic (missingColsMsg "db1" "t1")))] ++
        actionPhase missingColsDB Mode.compare [] :=
  compare_missing_columns_error missingColsDB (tableInfo.mk "db1" "t1" 50)
    (ResultSet.mk ["Foo"] [] none) [] [] rfl
    (Or.inl (by decide))

/-! ## C5 -/

/-- C5 (code bug): identifier quoting is not injection-proof.  The code
wraps names in backticks without escaping backticks inside the name, so the
distinct targets `("a", "b`.`c")` and `("a`.`b", "c")` produce the very
same ALTER statement text — the generated statement does not target exactly
the named schema and table, refuting structural impossibility of identifier
injection. -/
theorem alterStatement_backtick_collision :
    alterStatement "a" "b`.`c" 5 = alterStatement "a`.`b" "c" 5
    ∧ ("a" : String) ≠ "a`.`b" := by
  constructor
  · rfl
  · decide

/-! ## C7 -/

/-- C7: schema and table errors never cross boundaries.  A failing table
enumeration for `dbX` contributes no facts, leaves the collected facts
exactly those of a run without `dbX`, only inserts `dbX`'s own log events
between the untouched event streams of the schemas before and after it,
and leaves the action phase identical; and every fact's action events are a
contiguous segment independent of the other facts. -/
theorem schema_error_isolation
    (db : DBConn) (mode : Mode) (dbX : String) (e : SQLError)
    (pre post : List String)
    (hfail : db.showTables dbX = .error e) :
    (collectSchema db dbX).1 = []
    ∧ (collectPhase db (pre ++ dbX :: post)).1 = (collectPhase db (pre ++ post)).1
    ∧ (collectPhase db (pre ++ dbX :: post)).2 =
        (collectPhase db pre).2 ++ (collectSchema db dbX).2 ++ (collectPhase db post).2
    ∧ actionPhase db mode (collectPhase db (pre ++ dbX :: post)).1
        = actionPhase db mode (collectPhase db (pre ++ post)).1
    ∧ (∀ facts1 t facts2, actionPhase db mode (facts1 ++ t :: facts2)
        = actionPhase db mode facts1 ++ actionStep db mode t
            ++ actionPhase db mode facts2) := by
  have h1 : (collectSchema db dbX).1 = [] := by
    rw [collectSchema_fst, hfail]
  have h2 : (collectPhase db (pre ++ dbX :: post)).1 = (collectPhase db (pre ++ post)).1 := by
    rw [collectPhase_eq, collectPhase_eq]
    dsimp only
    rw [List.flatMap_append, List.flatMap_cons, h1, List.flatMap_append]
    simp
  refine ⟨h1, h2, ?_, by rw [h2], ?_⟩
  · rw [collectPhase_eq, collectPhase_eq, collectPhase_eq]
    dsimp only
    rw [List.flatMap_append, List.flatMap_cons, List.append_assoc]
  · intro facts1 t facts2
    rw [actionPhase_eq, actionPhase_eq, actionPhase_eq,
        List.flatMap_append, List.flatMap_cons, List.append_assoc]

/-- C7 witness: in the demo database, schema `bad` fails to enumerate yet
schema `db1` after it is processed exactly as in the run without `bad`. -/
theorem schema_error_isolation_witness :
    (collectSchema demoDB "bad").1 = []
    ∧ (collectPhase demoDB ([] ++ "bad" :: ["db1"])).1 = (collectPhase demoDB ([] ++ ["db1"])).1
    ∧ (collectPhase demoDB ([] ++ "bad" :: ["db1"])).2 =
        (collectPhase demoDB []).2 ++ (collectSchema demoDB "bad").2 ++ (collectPhase demoDB ["db1"]).2
    ∧ actionPhase demoDB Mode.rebase (collectPhase demoDB ([] ++ "bad" :: ["db1"])).1
        = actionPhase demoDB Mode.rebase (collectPhase demoDB ([] ++ ["db1"])).1
    ∧ (∀ facts1 t facts2, actionPhase demoDB Mode.rebase (facts1 ++ t :: facts2)
        = actionPhase demoDB Mode.rebase facts1 ++ actionStep demoDB Mode.rebase t
            ++ actionPhase demoDB Mode.rebase facts2) :=
  schema_error_isolation demoDB Mode.rebase "bad" (.generic "no such schema")
    [] ["db1"] (by decide)

/-! ## C8 -/

/-- C8: with any mode string other than `compare` or `rebase` (including
the missing, empty one) the run consists of the usage message and the fatal
exit only — it ends before any database-side event (no connection attempt,
no query, no statement) occurs. -/
theorem invalid_mode_no_db_access (env : Env) (c : Config)
    (hmode : parseMode c.modeString = none) :
    runMain env c = [Event.logMsg usageText, Event.fatalExit invalidModeMsg]
    ∧ (runMain env c).all (fun ev => !ev.isDBSide) = true := by
  have h : runMain env c = [Event.logMsg usageText, Event.fatalExit invalidModeMsg] := by
    unfold runMain
    rw [hmode]
  exact ⟨h, by rw [h]; rfl⟩

/-- C8 witness: a run with the mode flag left empty produces only the
usage message and the fatal exit. -/
theorem invalid_mode_no_db_access_witness :
    (parseMode (Config.mk "127.0.0.1" "4000" "root" "" "" "db1").modeString = none)
    ∧ (runMain (Env.mk (.ok demoDB)) (Config.mk "127.0.0.1" "4000" "root" "" "" "db1")
        = [Event.logMsg usageText, Event.fatalExit invalidModeMsg]
       ∧ (runMain (Env.mk (.ok demoDB)) (Config.mk "127.0.0.1" "4000" "root" "" "" "db1")).all
           (fun ev => !ev.isDBSide) = true) :=
  ⟨rfl, invalid_mode_no_db_access (Env.mk (.ok demoDB))
    (Config.mk "127.0.0.1" "4000" "root" "" "" "db1") rfl⟩

/-! ## C9 -/

/-- C9: in the dry-run variant with `dry-run` set, the update loop emits
exactly one log line per collected fact carrying the ALTER statement text
(with `maxID + 1`), and executes nothing; without `dry-run` the executed
statements are exactly those same texts — so the dry run logs precisely
what would have been executed. -/
theorem dry_run_logs_but_never_executes (db : DBConn)
    (entries : List (tableIdentifier × Int)) :
    v0ActionPhase db true entries =
      entries.map (fun e => Event.logMsg
        (">>> " ++ alterStatement e.1.Schema e.1.Table (e.2 + 1) ++ ";"))
    ∧ (v0ActionPhase db true entries).filter Event.isExec = []
    ∧ (v0ActionPhase db false entries).filter Event.isExec =
        entries.map (fun e => Event.sqlExec (alterStatement e.1.Schema e.1.Table (e.2 + 1))) := by
  have h1 : v0ActionPhase db true entries =
      entries.map (fun e => Event.logMsg
        (">>> " ++ alterStatement e.1.Schema e.1.Table (e.2 + 1) ++ ";")) := by
    rw [v0ActionPhase_eq]
    induction entries with
    | nil => rfl
    | cons x xs ih => simp only [List.flatMap_cons, List.map_cons, ih, v0ActionStep]; rfl
  refine ⟨h1, ?_, ?_⟩
  · rw [h1]
    simp [List.filter_map, Function.comp, Event.isExec]
  · clear h1
    rw [v0ActionPhase_eq]
    induction entries with
    | nil => rfl
    | cons x xs ih =>
        rw [List.flatMap_cons, List.filter_append, ih, List.map_cons]
        cases hex : db.execStmt (alterStatement x.1.Schema x.1.Table (x.2 + 1)) <;>
          simp [v0ActionStep, hex, Event.isExec]

/-! ## C10 -/

/-- C10 counterexample: the action phase of the map-based variant
(`src/main.go`) iterates a Go hash map, whose iteration order is
unspecified — any permutation of the entries is an admissible run.  Two
admissible orders over the same collected facts produce different action
sequences, so the action phase is not deterministic in the collected facts. -/
theorem map_iteration_order_counterexample :
    ([(tableIdentifier.mk "a" "t1", (1 : Int)), (tableIdentifier.mk "b" "t2", 2)]).Perm
      [(tableIdentifier.mk "b" "t2", (2 : Int)), (tableIdentifier.mk "a" "t1", 1)]
    ∧ v0ActionPhase demoDB false
        [(tableIdentifier.mk "a" "t1", (1 : Int)), (tableIdentifier.mk "b" "t2", 2)]
      ≠ v0ActionPhase demoDB false
          [(tableIdentifier.mk "b" "t2", (2 : Int)), (tableIdentifier.mk "a" "t1", 1)] := by
  constructor
  · exact List.Perm.swap _ _ _
  · decide

/-- C10 (amended: determinism and collection-order execution hold for the
slice-based version, part_000; the map-based variant's iteration order is
unspecified): the action phase is a deterministic function of the collected
fact list and performs each fact's action in exactly collection order —
schemas in list order, tables in enumeration order. -/
theorem slice_action_order_deterministic (db : DBConn) (mode : Mode)
    (facts : List tableInfo) (schemas : List String) :
    actionPhase db mode facts = facts.flatMap (actionStep db mode)
    ∧ (collectPhase db schemas).1 = schemas.flatMap (fun s => (collectSchema db s).1) := by
  exact ⟨actionPhase_eq db mode facts, by rw [collectPhase_eq]⟩

end ForceRebase
